import Mathlib

/-
Verification of the minerva-db SQL client data layer.
The repository ships only its test suite under src/tests; the client and
model modules (minerva_db.sql.api, minerva_db.sql.models) are not present,
so the operations below are modelled from the specification (spec.md,
sections 3, 4.1 - 4.4 and 7) with the tests as corroborating evidence.
State is a record of entity tables (lists of rows); every operation is a
pure function from a state and arguments to an Except value carrying the
typed failure condition or the created entity together with the new state.
A failing operation leaves the transaction uncommitted, so the caller
keeps the pre-call state (the commit helper below).
-/

namespace MinervaDB

/-- Modelled from the spec: the User row of minerva_db.sql.models (spec section 3),
absent from src. A User has only its opaque unique id. -/
structure User where
  uuid : String
  deriving DecidableEq

/-- Modelled from the spec: the Group row (spec section 3): id and a unique name. -/
structure Group where
  uuid : String
  name : String
  deriving DecidableEq

/-- Modelled from the spec: the Membership role enumeration, Owner or Member
(spec section 3). -/
inductive MembershipType where
  | Owner
  | Member
  deriving DecidableEq

/-- Modelled from the spec: the Membership row (spec section 3): composite key
(group_id, user_id) and a mutable role. -/
structure Membership where
  group_uuid : String
  user_uuid : String
  membership_type : MembershipType
  deriving DecidableEq

/-- Modelled from the spec: the raw_storage enumeration of a Repository
(spec section 3, e.g. Standard, Destroy; the backing store rejects any other
value with a type error). -/
inductive RawStorage where
  | Standard
  | Archive
  | Destroy
  deriving DecidableEq

/-- Modelled from the spec: the Repository row (spec section 3): unique id,
unique name and a raw_storage enum value. -/
structure Repository where
  uuid : String
  name : String
  raw_storage : RawStorage
  deriving DecidableEq

/-- Modelled from the spec: the ordered permission levels of a Grant
(spec section 4.4): Read < Write < Admin. -/
inductive Permission where
  | Read
  | Write
  | Admin
  deriving DecidableEq

/-- Modelled from the spec: a Grant row (spec section 3) binding a subject to a
Repository at a permission level. -/
structure Grant where
  subject_uuid : String
  repository_uuid : String
  permission : Permission
  deriving DecidableEq

/-- Modelled from the spec: the Import row (spec section 3): unique id, unique
name, owning repository and a completion flag (false at creation). -/
structure Import where
  uuid : String
  name : String
  repository_uuid : String
  complete : Bool
  deriving DecidableEq

/-- Modelled from the spec: the Key row (spec section 3): (import_id, key)
unique, with a nullable fileset_id recording the claiming Fileset. -/
structure Key where
  import_uuid : String
  key : String
  fileset_uuid : Option String
  deriving DecidableEq

/-- Modelled from the spec: the Fileset row (spec section 3). -/
structure Fileset where
  uuid : String
  name : String
  reader : String
  reader_software : String
  reader_version : String
  complete : Bool
  import_uuid : String
  deriving DecidableEq

/-- Modelled from the spec: the Image row (spec section 3): unique id, name,
opaque pyramid_levels metadata and the owning Fileset. -/
structure Image where
  uuid : String
  name : String
  pyramid_levels : Nat
  fileset_uuid : String
  deriving DecidableEq

/-- Modelled from the spec: the whole backing store, one list of rows per table
(spec sections 3 and 6). -/
structure DB where
  users : List User
  groups : List Group
  memberships : List Membership
  repositories : List Repository
  grants : List Grant
  imports : List Import
  filesets : List Fileset
  images : List Image
  keys : List Key
  deriving DecidableEq

/-- Modelled from the spec: the taxonomy of typed failure conditions
(spec sections 6 and 7): NotFound, Duplicate, InvalidEnum, KeyConflict and
InvalidState are distinct conditions. -/
inductive DBErr where
  | NotFound (entity_kind : String) (uuid : String)
  | Duplicate (entity_kind : String) (field : String)
  | InvalidEnum (field : String) (value : String)
  | KeyConflict (import_uuid : String) (key_names : List String)
  | InvalidState (reason : String)
  deriving DecidableEq

/-- Transaction semantics (spec section 7): a failing operation leaves the
transaction uncommitted, so the store returns to its pre-call state. -/
def commit {α : Type} (db : DB) (r : Except DBErr (α × DB)) : DB :=
  match r with
  | .ok (_, db2) => db2
  | .error _ => db

/-- True when an operation returned a success value. -/
def op_ok {α : Type} (r : Except DBErr α) : Bool :=
  match r with
  | .ok _ => true
  | .error _ => false

/-- Point lookup of an Import by its unique id. -/
def find_import (db : DB) (u : String) : Option Import :=
  db.imports.find? (fun i => i.uuid == u)

/-- Point lookup of a Fileset by its unique id. -/
def find_fileset (db : DB) (u : String) : Option Fileset :=
  db.filesets.find? (fun f => f.uuid == u)

/-- True when the Import named by iu holds a Key named k that no Fileset has
claimed (fileset_id is null), the per-key check of spec section 4.2 step (2). -/
def key_unclaimed (db : DB) (iu k : String) : Bool :=
  db.keys.any (fun key => key.import_uuid == iu && key.key == k &&
    key.fileset_uuid == none)

/-- Modelled from the spec: parsing of a raw_storage literal by the backing
store's type check (spec sections 3 and 4.1); an unrecognized value is an
InvalidEnum condition. -/
def parse_raw_storage : String → Option RawStorage
  | "Standard" => some RawStorage.Standard
  | "Archive" => some RawStorage.Archive
  | "Destroy" => some RawStorage.Destroy
  | _ => none

/-- Modelled from the spec: parsing of a membership role literal
(spec section 3). -/
def parse_membership_type : String → Option MembershipType
  | "Owner" => some MembershipType.Owner
  | "Member" => some MembershipType.Member
  | _ => none

/-- Modelled from the spec: Client.create_user (spec section 4.1 contract
applied to User, which has no parent). -/
def create_user (db : DB) (uuid : String) : Except DBErr (User × DB) :=
  if db.users.any (fun u => u.uuid == uuid) then
    .error (.Duplicate "User" "uuid")
  else
    let u : User := ⟨uuid⟩
    .ok (u, { db with users := u :: db.users })

/-- Modelled from the spec: Client.create_repository, absent from src
(spec sections 4.1 and 4.4). Validates the creating User first (NotFound
before any uniqueness or enum constraint), then the store's enum and
uniqueness checks, then inserts the Repository together with one Admin
Grant for the creating User in the same transaction. -/
def create_repository (db : DB) (user_uuid uuid name raw_storage : String) :
    Except DBErr (Repository × DB) :=
  if db.users.any (fun u => u.uuid == user_uuid) then
    match parse_raw_storage raw_storage with
    | none => .error (.InvalidEnum "raw_storage" raw_storage)
    | some rs =>
      if db.repositories.any (fun r => r.uuid == uuid) then
        .error (.Duplicate "Repository" "uuid")
      else if db.repositories.any (fun r => r.name == name) then
        .error (.Duplicate "Repository" "name")
      else
        let repo : Repository := ⟨uuid, name, rs⟩
        let g : Grant := ⟨user_uuid, uuid, Permission.Admin⟩
        .ok (repo, { db with repositories := repo :: db.repositories,
                             grants := g :: db.grants })
  else
    .error (.NotFound "User" user_uuid)

/-- Modelled from the spec: Client.create_group, absent from src
(spec sections 4.1 and 4.3). Validates the creating User first, then inserts
the Group together with one Owner Membership for the creator in the same
transaction. -/
def create_group (db : DB) (user_uuid uuid name : String) :
    Except DBErr (Group × DB) :=
  if db.users.any (fun u => u.uuid == user_uuid) then
    if db.groups.any (fun g => g.uuid == uuid) then
      .error (.Duplicate "Group" "uuid")
    else if db.groups.any (fun g => g.name == name) then
      .error (.Duplicate "Group" "name")
    else
      let g : Group := ⟨uuid, name⟩
      let m : Membership := ⟨uuid, user_uuid, MembershipType.Owner⟩
      .ok (g, { db with groups := g :: db.groups,
                        memberships := m :: db.memberships })
  else
    .error (.NotFound "User" user_uuid)

/-- Modelled from the spec: Client.create_membership, absent from src
(spec section 4.3). Group then User existence are validated before the
store's uniqueness check on the (group, user) pair. -/
def create_membership (db : DB) (group_uuid user_uuid membership_type : String) :
    Except DBErr (Membership × DB) :=
  if db.groups.any (fun g => g.uuid == group_uuid) then
    if db.users.any (fun u => u.uuid == user_uuid) then
      match parse_membership_type membership_type with
      | none => .error (.InvalidEnum "membership_type" membership_type)
      | some t =>
        if db.memberships.any (fun m =>
            m.group_uuid == group_uuid && m.user_uuid == user_uuid) then
          .error (.Duplicate "Membership" "group_uuid")
        else
          let m : Membership := ⟨group_uuid, user_uuid, t⟩
          .ok (m, { db with memberships := m :: db.memberships })
    else
      .error (.NotFound "User" user_uuid)
  else
    .error (.NotFound "Group" group_uuid)

/-- Membership existence check, a pure predicate (spec section 4.3). -/
def is_member (db : DB) (group_uuid user_uuid : String) : Bool :=
  db.memberships.any (fun m =>
    m.group_uuid == group_uuid && m.user_uuid == user_uuid)

/-- Ownership check, a pure predicate (spec section 4.3). -/
def is_owner (db : DB) (group_uuid user_uuid : String) : Bool :=
  db.memberships.any (fun m =>
    m.group_uuid == group_uuid && m.user_uuid == user_uuid &&
      m.membership_type == MembershipType.Owner)

/-- Modelled from the spec: Client.create_import, absent from src
(spec section 4.1). Parent Repository existence is validated first; the new
Import starts with complete = false. -/
def create_import (db : DB) (repository_uuid uuid name : String) :
    Except DBErr (Import × DB) :=
  if db.repositories.any (fun r => r.uuid == repository_uuid) then
    if db.imports.any (fun i => i.uuid == uuid) then
      .error (.Duplicate "Import" "uuid")
    else if db.imports.any (fun i => i.name == name) then
      .error (.Duplicate "Import" "name")
    else
      let i : Import := ⟨uuid, name, repository_uuid, false⟩
      .ok (i, { db with imports := i :: db.imports })
  else
    .error (.NotFound "Repository" repository_uuid)

/-- Step (4) of the Key Claim Engine (spec section 4.2): a Key row of the
Import named iu whose key-name was requested gets its fileset_id set to the
new Fileset's id u; every other row is untouched. -/
def claim_key (iu u : String) (ks : List String) (key : Key) : Key :=
  if key.import_uuid == iu && ks.contains key.key then
    { key with fileset_uuid := some u }
  else key

/-- Modelled from the spec: Client.create_fileset, absent from src, the Key
Claim Engine (spec section 4.2). Within one transaction: (1) verify the
Import exists, else NotFound; (2) verify every requested key-name exists in
that Import's namespace and is unclaimed, else KeyConflict naming the
offending keys, all-or-nothing; (3) insert the Fileset row, the store
raising Duplicate on a uuid collision; (4) set fileset_id on every requested
Key of that Import to the new Fileset's id. -/
def create_fileset (db : DB) (import_uuid : String) (ks : List String)
    (uuid name reader reader_software reader_version : String) :
    Except DBErr (Fileset × DB) :=
  match find_import db import_uuid with
  | none => .error (.NotFound "Import" import_uuid)
  | some _ =>
    if ks.all (fun k => key_unclaimed db import_uuid k) then
      if db.filesets.any (fun f => f.uuid == uuid) then
        .error (.Duplicate "Fileset" "uuid")
      else
        let fs : Fileset := ⟨uuid, name, reader, reader_software,
                             reader_version, false, import_uuid⟩
        let keys2 := db.keys.map (claim_key import_uuid uuid ks)
        .ok (fs, { db with filesets := fs :: db.filesets, keys := keys2 })
    else
      .error (.KeyConflict import_uuid
        (ks.filter (fun k => !(key_unclaimed db import_uuid k))))

/-- Image fields passed to update_fileset when registering images together
with completion (spec section 4.2). -/
structure ImageDraft where
  uuid : String
  name : String
  pyramid_levels : Nat
  deriving DecidableEq

/-- Modelled from the spec: Client.update_fileset, absent from src
(spec section 4.2): partial update of the completion flag, optionally
registering images; attaching images without simultaneously setting
complete = true fails with InvalidState. -/
def update_fileset (db : DB) (uuid : String) (complete : Option Bool)
    (images : Option (List ImageDraft)) : Except DBErr (Fileset × DB) :=
  match find_fileset db uuid with
  | none => .error (.NotFound "Fileset" uuid)
  | some fs =>
    if images.isSome && complete != some true then
      .error (.InvalidState "images require completion")
    else
      let fs2 := { fs with complete := complete.getD fs.complete }
      let new_images := (images.getD []).map (fun d =>
        Image.mk d.uuid d.name d.pyramid_levels uuid)
      .ok (fs2, { db with
        filesets := db.filesets.map (fun f => if f.uuid == uuid then fs2 else f),
        images := new_images ++ db.images })

/-- Modelled from the spec: Client.create_image, absent from src
(spec section 4.1 contract applied to Image; the test test_create_image
registers an Image against an ordinary Fileset fixture). Parent Fileset
existence is validated first, then the store's uniqueness check. -/
def create_image (db : DB) (fileset_uuid uuid name : String)
    (pyramid_levels : Nat) : Except DBErr (Image × DB) :=
  if db.filesets.any (fun f => f.uuid == fileset_uuid) then
    if db.images.any (fun im => im.uuid == uuid) then
      .error (.Duplicate "Image" "uuid")
    else
      let im : Image := ⟨uuid, name, pyramid_levels, fileset_uuid⟩
      .ok (im, { db with images := im :: db.images })
  else
    .error (.NotFound "Fileset" fileset_uuid)

/-- The ids of the Imports contained in the Repository named ru, the ones a
cascade delete of ru removes. -/
def dead_imports (db : DB) (ru : String) : List String :=
  (db.imports.filter (fun i => i.repository_uuid == ru)).map Import.uuid

/-- The ids of the Filesets contained (through an Import) in the Repository
named ru. -/
def dead_filesets (db : DB) (ru : String) : List String :=
  (db.filesets.filter (fun f =>
    (dead_imports db ru).contains f.import_uuid)).map Fileset.uuid

/-- Modelled from the spec: Client.delete_repository, absent from src
(spec sections 3 and 4.1): deletes the Repository and, transitively, every
Import, Fileset, Image and Key it contains and every Grant scoped to it;
Users and Groups are never deleted. -/
def delete_repository (db : DB) (uuid : String) : Except DBErr (Unit × DB) :=
  if db.repositories.any (fun r => r.uuid == uuid) then
    .ok ((), { db with
      repositories := db.repositories.filter (fun r => !(r.uuid == uuid)),
      imports := db.imports.filter (fun i => !(i.repository_uuid == uuid)),
      filesets := db.filesets.filter (fun f =>
        !((dead_imports db uuid).contains f.import_uuid)),
      images := db.images.filter (fun im =>
        !((dead_filesets db uuid).contains im.fileset_uuid)),
      keys := db.keys.filter (fun k =>
        !((dead_imports db uuid).contains k.import_uuid)),
      grants := db.grants.filter (fun g => !(g.repository_uuid == uuid)) })
  else
    .error (.NotFound "Repository" uuid)

/-- The Key rows of the Import named iu and key-name k all point at the
Fileset named fu, and at least one such row exists: k is claimed by fu and
by no other Fileset. -/
def claimed_by (db : DB) (iu k fu : String) : Prop :=
  (∃ key ∈ db.keys, key.import_uuid = iu ∧ key.key = k ∧
    key.fileset_uuid = some fu) ∧
  ∀ key ∈ db.keys, key.import_uuid = iu → key.key = k →
    key.fileset_uuid = some fu

/-- Store invariant (spec section 3): (import_id, key) is unique, so no two
Key rows share an Import and a key-name. -/
def keys_unique (db : DB) : Prop :=
  db.keys.Pairwise (fun a b => ¬(a.import_uuid = b.import_uuid ∧ a.key = b.key))

/-- A store with one Repository and one Group and no Users, for exercising the
missing-parent paths. -/
def db_repo_group : DB :=
  ⟨[], [⟨"g1", "grp1"⟩], [], [⟨"r1", "repo1", RawStorage.Standard⟩],
   [], [], [], [], []⟩

/-- A store with one Import owning two unclaimed Keys. -/
def db_keys2 : DB :=
  ⟨[], [], [], [], [], [⟨"i1", "imp1", "r1", false⟩], [],
   [], [⟨"i1", "k1", none⟩, ⟨"i1", "k2", none⟩]⟩

/-- A store with one Import whose single Key is already claimed by Fileset f0. -/
def db_claimed : DB :=
  ⟨[], [], [], [], [], [⟨"i1", "imp1", "r1", false⟩],
   [⟨"f0", "fs0", "rd", "sw", "v", false, "i1"⟩],
   [], [⟨"i1", "k1", some "f0"⟩]⟩

/-- A store with two Imports each owning an unclaimed Key of the same name. -/
def db_two_imports : DB :=
  ⟨[], [], [], [],
   [], [⟨"i1", "imp1", "r1", false⟩, ⟨"i2", "imp2", "r1", false⟩], [],
   [], [⟨"i1", "key", none⟩, ⟨"i2", "key", none⟩]⟩

/-- A store holding a single User. -/
def db_user_only : DB :=
  ⟨[⟨"u1"⟩], [], [], [], [], [], [], [], []⟩

/-- A store with one incomplete Fileset and no Images. -/
def db_fileset_only : DB :=
  ⟨[], [], [], [], [], [],
   [⟨"f1", "fs1", "rd", "sw", "v", false, "i1"⟩], [], []⟩

/-- A full hierarchy: one User holding a Read Grant on a Repository that
contains an Import, a Fileset, an Image and a claimed Key. -/
def db_hierarchy : DB :=
  ⟨[⟨"u1"⟩], [⟨"g1", "grp1"⟩], [], [⟨"r1", "repo1", RawStorage.Standard⟩],
   [⟨"u1", "r1", Permission.Read⟩], [⟨"i1", "imp1", "r1", false⟩],
   [⟨"f1", "fs1", "rd", "sw", "v", false, "i1"⟩],
   [⟨"im1", "image1", 3, "f1"⟩], [⟨"i1", "k1", some "f1"⟩]⟩

/-- An empty claim touches no Key row. -/
theorem claim_key_nil (iu u : String) (key : Key) : claim_key iu u [] key = key := by
  simp [claim_key]

/-- A requested Key row of the right Import is rewritten to point at the new
Fileset. -/
theorem claim_key_hit (iu u : String) (ks : List String) (key : Key)
    (hc : (key.import_uuid == iu && ks.contains key.key) = true) :
    claim_key iu u ks key = { key with fileset_uuid := some u } := by
  unfold claim_key
  rw [hc]
  simp

/-- A Key row outside the requested set is untouched. -/
theorem claim_key_miss (iu u : String) (ks : List String) (key : Key)
    (hc : (key.import_uuid == iu && ks.contains key.key) = false) :
    claim_key iu u ks key = key := by
  unfold claim_key
  rw [hc]
  simp

/-- C8: For every create operation that names a parent (create_import,
create_fileset, create_image, create_repository's user, create_membership's
group and user), a nonexistent parent makes the operation fail with the
NotFound condition, checked before any uniqueness or enum constraint, and
never a generic constraint failure: the conclusion holds with no hypothesis
on the remaining arguments, so it holds even when a duplicate id or an
invalid enum literal is also present. -/
theorem create_parent_notfound (db : DB) :
    (∀ uu u n rs, db.users.any (fun x => x.uuid == uu) = false →
      create_repository db uu u n rs = .error (.NotFound "User" uu)) ∧
    (∀ ru u n, db.repositories.any (fun r => r.uuid == ru) = false →
      create_import db ru u n = .error (.NotFound "Repository" ru)) ∧
    (∀ iu ks u n rd rs rv, find_import db iu = none →
      create_fileset db iu ks u n rd rs rv = .error (.NotFound "Import" iu)) ∧
    (∀ fu u n pl, db.filesets.any (fun f => f.uuid == fu) = false →
      create_image db fu u n pl = .error (.NotFound "Fileset" fu)) ∧
    (∀ gu uu mt, db.groups.any (fun g => g.uuid == gu) = false →
      create_membership db gu uu mt = .error (.NotFound "Group" gu)) ∧
    (∀ gu uu mt, db.groups.any (fun g => g.uuid == gu) = true →
      db.users.any (fun x => x.uuid == uu) = false →
      create_membership db gu uu mt = .error (.NotFound "User" uu)) := by
  refine ⟨?_, ?_, ?_, ?_, ?_, ?_⟩
  · intro uu u n rs h
    simp [create_repository, h]
  · intro ru u n h
    simp [create_import, h]
  · intro iu ks u n rd rs rv h
    simp [create_fileset, h]
  · intro fu u n pl h
    simp [create_image, h]
  · intro gu uu mt h
    simp [create_membership, h]
  · intro gu uu mt hg hu
    simp [create_membership, hg, hu]

/-- Witness for C8: against a store holding Repository r1 and Group g1 but no
Users, create_repository with a nonexistent user, a duplicate repository
uuid and an invalid raw_storage literal fails with NotFound on the user. -/
theorem create_parent_notfound_witness :
    create_repository db_repo_group "ghost" "r1" "repo1" "nonexistant" =
      .error (.NotFound "User" "ghost") :=
  (create_parent_notfound db_repo_group).1 "ghost" "r1" "repo1" "nonexistant"
    (by decide)

/-- C10: For every existing Import, create_fileset with an empty key set and
otherwise valid fields succeeds, creating a Fileset that owns no Keys: no
minimum key-set size, and an empty claim is not a KeyConflict. The last
hypothesis is the store invariant that no Key row references the fresh
Fileset id before it exists. -/
theorem create_fileset_empty_keys (db : DB) (iu u n rd rs rv : String)
    (i : Import) (himp : find_import db iu = some i)
    (hfresh : db.filesets.any (fun f => f.uuid == u) = false)
    (hnoclaim : ∀ key ∈ db.keys, key.fileset_uuid ≠ some u) :
    ∃ fs db2, create_fileset db iu [] u n rd rs rv = .ok (fs, db2) ∧
      fs.uuid = u ∧ db2.keys = db.keys ∧
      ∀ key ∈ db2.keys, key.fileset_uuid ≠ some u := by
  refine ⟨⟨u, n, rd, rs, rv, false, iu⟩,
    { db with filesets := ⟨u, n, rd, rs, rv, false, iu⟩ :: db.filesets,
              keys := db.keys }, ?_, rfl, rfl, hnoclaim⟩
  simp only [create_fileset, himp, hfresh, List.all_nil, if_true,
    Bool.false_eq_true, if_false]
  rw [List.map_id'' (claim_key_nil iu u) db.keys]

/-- Witness for C10: creating Fileset f9 with an empty key set under Import i1
of a store with two unclaimed keys succeeds and claims nothing. -/
theorem create_fileset_empty_keys_witness :
    ∃ fs db2, create_fileset db_keys2 "i1" [] "f9" "n" "rd" "sw" "v" =
      .ok (fs, db2) ∧ fs.uuid = "f9" ∧ db2.keys = db_keys2.keys ∧
      ∀ key ∈ db2.keys, key.fileset_uuid ≠ some "f9" :=
  create_fileset_empty_keys db_keys2 "i1" "f9" "n" "rd" "sw" "v"
    ⟨"i1", "imp1", "r1", false⟩ (by decide) (by decide) (by decide)

/-- C5: Every successful create_repository call by an existing User u creates,
in the same transaction, exactly one Grant on the new Repository, with
subject u and permission Admin, so u is that Repository's sole authorized
subject at Admin level immediately after creation. The last hypothesis is
the store invariant that no Grant row references the fresh repository id
before it exists. -/
theorem create_repository_admin_grant (db : DB) (uu ru rn rsl : String)
    (v : RawStorage)
    (huser : db.users.any (fun x => x.uuid == uu) = true)
    (henum : parse_raw_storage rsl = some v)
    (hru : db.repositories.any (fun r => r.uuid == ru) = false)
    (hrn : db.repositories.any (fun r => r.name == rn) = false)
    (hg : ∀ g ∈ db.grants, g.repository_uuid ≠ ru) :
    ∃ repo db2, create_repository db uu ru rn rsl = .ok (repo, db2) ∧
      repo.uuid = ru ∧
      db2.grants.filter (fun g => g.repository_uuid == ru) =
        [⟨uu, ru, Permission.Admin⟩] := by
  refine ⟨⟨ru, rn, v⟩,
    { db with repositories := ⟨ru, rn, v⟩ :: db.repositories,
              grants := ⟨uu, ru, Permission.Admin⟩ :: db.grants },
    ?_, rfl, ?_⟩
  · simp [create_repository, huser, henum, hru, hrn]
  · show List.filter _ (_ :: db.grants) = _
    rw [List.filter_cons_of_pos (by simp)]
    have h0 : db.grants.filter (fun g => g.repository_uuid == ru) = [] := by
      rw [List.filter_eq_nil_iff]
      intro a ha
      simpa using hg a ha
    rw [h0]

/-- Witness for C5: user u1 creates repository r7; afterwards the grants on r7
are exactly one Admin grant for u1. -/
theorem create_repository_admin_grant_witness :
    ∃ repo db2, create_repository db_user_only "u1" "r7" "repo7" "Standard" =
      .ok (repo, db2) ∧ repo.uuid = "r7" ∧
      db2.grants.filter (fun g => g.repository_uuid == "r7") =
        [⟨"u1", "r7", Permission.Admin⟩] :=
  create_repository_admin_grant db_user_only "u1" "r7" "repo7" "Standard"
    RawStorage.Standard (by decide) (by decide) (by decide) (by decide)
    (by decide)

/-- C6: Every successful create_group call by an existing User u creates, in
the same transaction, exactly one Membership row binding u to the new Group
with role Owner, so afterwards is_owner holds for u and is_member fails for
every other User. The last hypothesis is the store invariant that no
Membership row references the fresh group id before it exists. -/
theorem create_group_owner_membership (db : DB) (uu gu gn : String)
    (huser : db.users.any (fun x => x.uuid == uu) = true)
    (hgu : db.groups.any (fun g => g.uuid == gu) = false)
    (hgn : db.groups.any (fun g => g.name == gn) = false)
    (hm : ∀ m ∈ db.memberships, m.group_uuid ≠ gu) :
    ∃ g db2, create_group db uu gu gn = .ok (g, db2) ∧
      db2.memberships.filter (fun m => m.group_uuid == gu) =
        [⟨gu, uu, MembershipType.Owner⟩] ∧
      is_owner db2 gu uu = true ∧
      ∀ u2, u2 ≠ uu → is_member db2 gu u2 = false := by
  refine ⟨⟨gu, gn⟩,
    { db with groups := ⟨gu, gn⟩ :: db.groups,
              memberships := ⟨gu, uu, MembershipType.Owner⟩ :: db.memberships },
    ?_, ?_, ?_, ?_⟩
  · simp [create_group, huser, hgu, hgn]
  · show List.filter _ (_ :: db.memberships) = _
    rw [List.filter_cons_of_pos (by simp)]
    have h0 : db.memberships.filter (fun m => m.group_uuid == gu) = [] := by
      rw [List.filter_eq_nil_iff]
      intro a ha
      simpa using hm a ha
    rw [h0]
  · simp [is_owner]
  · intro u2 hne
    simp only [is_member, List.any_cons, Bool.or_eq_false_iff]
    constructor
    · simp [Ne.symm hne]
    · rw [List.any_eq_false]
      intro m hm2
      simp [hm m hm2]

/-- Witness for C6: user u1 creates group g7; afterwards the memberships of g7
are exactly one Owner row for u1, is_owner g7 u1 holds and is_member g7 u2
fails for the unrelated user u2. -/
theorem create_group_owner_membership_witness :
    ∃ g db2, create_group db_user_only "u1" "g7" "grp7" = .ok (g, db2) ∧
      db2.memberships.filter (fun m => m.group_uuid == "g7") =
        [⟨"g7", "u1", MembershipType.Owner⟩] ∧
      is_owner db2 "g7" "u1" = true ∧
      ∀ u2, u2 ≠ "u1" → is_member db2 "g7" u2 = false :=
  create_group_owner_membership db_user_only "u1" "g7" "grp7" (by decide)
    (by decide) (by decide) (by decide)

/-- C1: For every call to create_fileset on an existing Import with key set K
(the new Fileset's uuid being fresh, so that the store's Duplicate check
does not intervene), either the call succeeds and every key in K is claimed
by the new Fileset and by no other Fileset, or the call fails with
KeyConflict and the transaction is not committed, so zero keys are claimed
and no Fileset row persists: all-or-nothing. -/
theorem create_fileset_atomicity (db : DB) (iu u n rd rs rv : String)
    (K : List String) (i : Import)
    (himp : find_import db iu = some i)
    (hfresh : db.filesets.any (fun f => f.uuid == u) = false) :
    (∃ fs db2, create_fileset db iu K u n rd rs rv = .ok (fs, db2) ∧
      fs.uuid = u ∧ ∀ k ∈ K, claimed_by db2 iu k u) ∨
    (∃ ks, create_fileset db iu K u n rd rs rv = .error (.KeyConflict iu ks) ∧
      commit db (create_fileset db iu K u n rd rs rv) = db) := by
  by_cases hall : K.all (fun k => key_unclaimed db iu k) = true
  case neg =>
    right
    rw [Bool.not_eq_true] at hall
    refine ⟨K.filter (fun k => !(key_unclaimed db iu k)), ?_, ?_⟩
    · simp [create_fileset, himp, hall]
    · simp [commit, create_fileset, himp, hall]
  case pos =>
    left
    refine ⟨⟨u, n, rd, rs, rv, false, iu⟩,
      { db with filesets := ⟨u, n, rd, rs, rv, false, iu⟩ :: db.filesets,
                keys := db.keys.map (claim_key iu u K) }, ?_, rfl, ?_⟩
    · simp [create_fileset, himp, hall, hfresh]
    · intro k hk
      have hunclaimed : key_unclaimed db iu k = true := by
        simpa using List.all_eq_true.mp hall k hk
      constructor
      · rcases List.any_eq_true.mp hunclaimed with ⟨key0, hmem, hprop⟩
        simp only [Bool.and_eq_true, beq_iff_eq] at hprop
        have hc : (key0.import_uuid == iu && K.contains key0.key) = true := by
          simp [hprop.1.1, hprop.1.2, List.contains, hk]
        refine ⟨claim_key iu u K key0, List.mem_map_of_mem _ hmem, ?_⟩
        rw [claim_key_hit iu u K key0 hc]
        exact ⟨hprop.1.1, hprop.1.2, rfl⟩
      · intro key2 hmem2 hiu2 hk2
        rcases List.mem_map.mp hmem2 with ⟨key0, hmem0, rfl⟩
        by_cases hc : (key0.import_uuid == iu && K.contains key0.key) = true
        · rw [claim_key_hit iu u K key0 hc]
        · exfalso
          rw [Bool.not_eq_true] at hc
          rw [claim_key_miss iu u K key0 hc] at hiu2 hk2
          have hcontra : (key0.import_uuid == iu && K.contains key0.key) = true := by
            simp [hiu2, hk2, List.contains, hk]
          rw [hcontra] at hc
          simp at hc

/-- Witness for C1: creating Fileset f1 under Import i1 with key set
[k1, k2] against the two-unclaimed-keys store lands in one branch of the
atomicity disjunction. -/
theorem create_fileset_atomicity_witness :
    (∃ fs db2,
      create_fileset db_keys2 "i1" ["k1", "k2"] "f1" "n" "rd" "sw" "v" =
        .ok (fs, db2) ∧ fs.uuid = "f1" ∧
        ∀ k ∈ ["k1", "k2"], claimed_by db2 "i1" k "f1") ∨
    (∃ ks,
      create_fileset db_keys2 "i1" ["k1", "k2"] "f1" "n" "rd" "sw" "v" =
        .error (.KeyConflict "i1" ks) ∧
      commit db_keys2
        (create_fileset db_keys2 "i1" ["k1", "k2"] "f1" "n" "rd" "sw" "v") =
        db_keys2) :=
  create_fileset_atomicity db_keys2 "i1" "f1" "n" "rd" "sw" "v" ["k1", "k2"]
    ⟨"i1", "imp1", "r1", false⟩ (by decide) (by decide)

/-- An Import of the Repository named ru is listed among the cascade's dead
imports. -/
theorem mem_dead_imports (db : DB) (ru : String) (i : Import)
    (hmem : i ∈ db.imports) (hru : i.repository_uuid = ru) :
    (dead_imports db ru).contains i.uuid = true := by
  unfold dead_imports
  have h1 : i ∈ db.imports.filter (fun i2 => i2.repository_uuid == ru) := by
    rw [List.mem_filter]
    exact ⟨hmem, by simp [hru]⟩
  have h2 := List.mem_map_of_mem Import.uuid h1
  exact List.elem_eq_true_of_mem h2

/-- A Fileset whose Import belongs to the Repository named ru is listed among
the cascade's dead filesets. -/
theorem mem_dead_filesets (db : DB) (ru : String) (f : Fileset) (i : Import)
    (hf : f ∈ db.filesets) (hi : i ∈ db.imports) (hru : i.repository_uuid = ru)
    (hfi : f.import_uuid = i.uuid) :
    (dead_filesets db ru).contains f.uuid = true := by
  unfold dead_filesets
  have h1 : f ∈ db.filesets.filter (fun f2 =>
      (dead_imports db ru).contains f2.import_uuid) := by
    rw [List.mem_filter]
    refine ⟨hf, ?_⟩
    rw [hfi]
    exact mem_dead_imports db ru i hi hru
  have h2 := List.mem_map_of_mem Fileset.uuid h1
  exact List.elem_eq_true_of_mem h2

/-- C3: For every existing Repository R, delete_repository removes every
Import, Fileset, Image, Key and Grant scoped under R, and leaves the User
and Group tables untouched (so their row counts are unchanged), even for
Users whose only Grant was on R. Scoping under R is read off the pre-call
store: an Import by its repository id, a Fileset or Key through its Import,
an Image through its Fileset and that Fileset's Import. -/
theorem delete_repository_cascade (db : DB) (ru : String)
    (hrepo : db.repositories.any (fun r => r.uuid == ru) = true) :
    ∃ db2, delete_repository db ru = .ok ((), db2) ∧
      db2.users = db.users ∧ db2.groups = db.groups ∧
      (∀ r ∈ db2.repositories, r.uuid ≠ ru) ∧
      (∀ i ∈ db2.imports, i.repository_uuid ≠ ru) ∧
      (∀ g ∈ db2.grants, g.repository_uuid ≠ ru) ∧
      (∀ f ∈ db2.filesets, ∀ i ∈ db.imports, i.repository_uuid = ru →
        f.import_uuid ≠ i.uuid) ∧
      (∀ kk ∈ db2.keys, ∀ i ∈ db.imports, i.repository_uuid = ru →
        kk.import_uuid ≠ i.uuid) ∧
      (∀ im ∈ db2.images, ∀ f ∈ db.filesets, ∀ i ∈ db.imports,
        i.repository_uuid = ru → f.import_uuid = i.uuid →
        im.fileset_uuid ≠ f.uuid) := by
  refine ⟨{ db with
      repositories := db.repositories.filter (fun r => !(r.uuid == ru)),
      imports := db.imports.filter (fun i => !(i.repository_uuid == ru)),
      filesets := db.filesets.filter (fun f =>
        !((dead_imports db ru).contains f.import_uuid)),
      images := db.images.filter (fun im =>
        !((dead_filesets db ru).contains im.fileset_uuid)),
      keys := db.keys.filter (fun k =>
        !((dead_imports db ru).contains k.import_uuid)),
      grants := db.grants.filter (fun g => !(g.repository_uuid == ru)) },
    ?_, rfl, rfl, ?_, ?_, ?_, ?_, ?_, ?_⟩
  · simp [delete_repository, hrepo]
  · intro r hr
    rw [List.mem_filter] at hr
    simpa using hr.2
  · intro i hi
    rw [List.mem_filter] at hi
    simpa using hi.2
  · intro g hg
    rw [List.mem_filter] at hg
    simpa using hg.2
  · intro f hf i hi hru2 heq
    rw [List.mem_filter] at hf
    have hc := hf.2
    rw [heq, mem_dead_imports db ru i hi hru2] at hc
    simp at hc
  · intro kk hk i hi hru2 heq
    rw [List.mem_filter] at hk
    have hc := hk.2
    rw [heq, mem_dead_imports db ru i hi hru2] at hc
    simp at hc
  · intro im him f hf i hi hru2 hfi heq
    rw [List.mem_filter] at him
    have hc := him.2
    rw [heq, mem_dead_filesets db ru f i hf hi hru2 hfi] at hc
    simp at hc

/-- Witness for C3: deleting Repository r1 of the full hierarchy store removes
its Import, Fileset, Image, Key and Grant while the User and Group tables
survive unchanged. -/
theorem delete_repository_cascade_witness :
    ∃ db2, delete_repository db_hierarchy "r1" = .ok ((), db2) ∧
      db2.users = db_hierarchy.users ∧ db2.groups = db_hierarchy.groups ∧
      (∀ r ∈ db2.repositories, r.uuid ≠ "r1") ∧
      (∀ i ∈ db2.imports, i.repository_uuid ≠ "r1") ∧
      (∀ g ∈ db2.grants, g.repository_uuid ≠ "r1") ∧
      (∀ f ∈ db2.filesets, ∀ i ∈ db_hierarchy.imports,
        i.repository_uuid = "r1" → f.import_uuid ≠ i.uuid) ∧
      (∀ kk ∈ db2.keys, ∀ i ∈ db_hierarchy.imports,
        i.repository_uuid = "r1" → kk.import_uuid ≠ i.uuid) ∧
      (∀ im ∈ db2.images, ∀ f ∈ db_hierarchy.filesets,
        ∀ i ∈ db_hierarchy.imports, i.repository_uuid = "r1" →
        f.import_uuid = i.uuid → im.fileset_uuid ≠ f.uuid) :=
  delete_repository_cascade db_hierarchy "r1" (by decide)

/-- C4: For two distinct Imports each holding an unclaimed Key with the same
key-name k, create_fileset under the first Import claiming [k] succeeds,
and create_fileset under the second Import claiming [k] in the resulting
state succeeds as well: key claiming is scoped per Import, never global. -/
theorem create_fileset_key_scope (db : DB)
    (iu1 iu2 k u1 u2 n1 n2 rd rs rv : String) (i1 i2 : Import)
    (hne : iu1 ≠ iu2) (hu : u1 ≠ u2)
    (h1 : find_import db iu1 = some i1)
    (h2 : find_import db iu2 = some i2)
    (hk1 : key_unclaimed db iu1 k = true)
    (hk2 : key_unclaimed db iu2 k = true)
    (hf1 : db.filesets.any (fun f => f.uuid == u1) = false)
    (hf2 : db.filesets.any (fun f => f.uuid == u2) = false) :
    ∃ fs1 db1, create_fileset db iu1 [k] u1 n1 rd rs rv = .ok (fs1, db1) ∧
      op_ok (create_fileset db1 iu2 [k] u2 n2 rd rs rv) = true := by
  rcases List.any_eq_true.mp hk2 with ⟨key0, hmem, hprop⟩
  have hprop2 := hprop
  simp only [Bool.and_eq_true, beq_iff_eq] at hprop2
  have hm : (key0.import_uuid == iu1 && List.contains [k] key0.key) = false := by
    simp [hprop2.1.1, Ne.symm hne]
  refine ⟨⟨u1, n1, rd, rs, rv, false, iu1⟩,
    { db with filesets := ⟨u1, n1, rd, rs, rv, false, iu1⟩ :: db.filesets,
              keys := db.keys.map (claim_key iu1 u1 [k]) }, ?_, ?_⟩
  · have hall1 : ([k].all (fun k2 => key_unclaimed db iu1 k2)) = true := by
      simp [hk1]
    simp [create_fileset, h1, hall1, hf1]
  · have himp2 : find_import
        { db with filesets := ⟨u1, n1, rd, rs, rv, false, iu1⟩ :: db.filesets,
                  keys := db.keys.map (claim_key iu1 u1 [k]) } iu2 =
        some i2 := h2
    have hk2n : key_unclaimed
        { db with filesets := ⟨u1, n1, rd, rs, rv, false, iu1⟩ :: db.filesets,
                  keys := db.keys.map (claim_key iu1 u1 [k]) } iu2 k = true := by
      apply List.any_eq_true.mpr
      refine ⟨key0, ?_, hprop⟩
      show key0 ∈ db.keys.map (claim_key iu1 u1 [k])
      rw [← claim_key_miss iu1 u1 [k] key0 hm]
      exact List.mem_map_of_mem _ hmem
    have hall2 : ([k].all (fun k2 => key_unclaimed
        { db with filesets := ⟨u1, n1, rd, rs, rv, false, iu1⟩ :: db.filesets,
                  keys := db.keys.map (claim_key iu1 u1 [k]) } iu2 k2)) = true := by
      simp [hk2n]
    have hfs2 : (({ db with
        filesets := ⟨u1, n1, rd, rs, rv, false, iu1⟩ :: db.filesets,
        keys := db.keys.map (claim_key iu1 u1 [k]) } : DB).filesets.any
          (fun f => f.uuid == u2)) = false := by
      show ((⟨u1, n1, rd, rs, rv, false, iu1⟩ : Fileset) :: db.filesets).any
        (fun f => f.uuid == u2) = false
      simp only [List.any_cons, Bool.or_eq_false_iff]
      exact ⟨beq_eq_false_iff_ne.mpr hu, hf2⟩
    simp [create_fileset, himp2, hall2, hfs2, op_ok]

/-- Witness for C4: against the store with Imports i1 and i2 each holding an
unclaimed Key named key, Fileset f1 claims key under i1 and then Fileset f2
claims key under i2, both successfully. -/
theorem create_fileset_key_scope_witness :
    ∃ fs1 db1, create_fileset db_two_imports "i1" ["key"] "f1" "n1" "rd" "sw"
      "v" = .ok (fs1, db1) ∧
      op_ok (create_fileset db1 "i2" ["key"] "f2" "n2" "rd" "sw" "v") = true :=
  create_fileset_key_scope db_two_imports "i1" "i2" "key" "f1" "f2" "n1" "n2"
    "rd" "sw" "v" ⟨"i1", "imp1", "r1", false⟩ ⟨"i2", "imp2", "r1", false⟩
    (by decide) (by decide) (by decide) (by decide) (by decide) (by decide)
    (by decide) (by decide)

/-- C7: create_fileset fails with the KeyConflict condition both when a
requested key-name is already claimed by another Fileset and when a
requested key-name is absent from the Import's namespace (the hypothesis
hbad is the disjunction of the two cases), and the KeyConflict value is a
typed condition distinct from every Duplicate value (raised for a duplicate
Fileset uuid) and from every InvalidState value. -/
theorem create_fileset_keyconflict_typed (db : DB) (iu u n rd rs rv : String)
    (K : List String) (i : Import)
    (hw : keys_unique db)
    (himp : find_import db iu = some i)
    (hbad : (∃ k ∈ K, ∃ key ∈ db.keys, key.import_uuid = iu ∧ key.key = k ∧
        key.fileset_uuid ≠ none) ∨
      (∃ k ∈ K, ∀ key ∈ db.keys, ¬(key.import_uuid = iu ∧ key.key = k))) :
    ∃ ks, create_fileset db iu K u n rd rs rv = .error (.KeyConflict iu ks) ∧
      (∀ ek fd, DBErr.KeyConflict iu ks ≠ DBErr.Duplicate ek fd) ∧
      (∀ r0, DBErr.KeyConflict iu ks ≠ DBErr.InvalidState r0) := by
  have hall : (K.all (fun k => key_unclaimed db iu k)) = false := by
    rw [List.all_eq_false]
    rcases hbad with ⟨k, hk, key0, hmem, hiu0, hk0, hcl⟩ | ⟨k, hk, habs⟩
    · refine ⟨k, hk, ?_⟩
      intro htrue
      rcases List.any_eq_true.mp htrue with ⟨key2, hmem2, hcond⟩
      simp only [Bool.and_eq_true, beq_iff_eq] at hcond
      have hne0 : key0 ≠ key2 := by
        intro he
        rw [he] at hcl
        exact hcl hcond.2
      have hsymm : Symmetric (fun a b : Key =>
          ¬(a.import_uuid = b.import_uuid ∧ a.key = b.key)) := by
        intro a b hab hba
        exact hab ⟨hba.1.symm, hba.2.symm⟩
      exact List.Pairwise.forall hsymm hw hmem hmem2 hne0
        ⟨hiu0.trans hcond.1.1.symm, hk0.trans hcond.1.2.symm⟩
    · refine ⟨k, hk, ?_⟩
      intro htrue
      rcases List.any_eq_true.mp htrue with ⟨key2, hmem2, hcond⟩
      simp only [Bool.and_eq_true, beq_iff_eq] at hcond
      exact habs key2 hmem2 ⟨hcond.1.1, hcond.1.2⟩
  refine ⟨K.filter (fun k => !(key_unclaimed db iu k)), ?_, ?_, ?_⟩
  · simp [create_fileset, himp, hall]
  · intro ek fd h
    exact DBErr.noConfusion h
  · intro r0 h
    exact DBErr.noConfusion h

/-- Witness for C7: requesting the already claimed key k1 of Import i1 fails
with a KeyConflict distinct from every Duplicate and InvalidState value. -/
theorem create_fileset_keyconflict_typed_witness :
    ∃ ks, create_fileset db_claimed "i1" ["k1"] "f1" "n" "rd" "sw" "v" =
      .error (.KeyConflict "i1" ks) ∧
      (∀ ek fd, DBErr.KeyConflict "i1" ks ≠ DBErr.Duplicate ek fd) ∧
      (∀ r0, DBErr.KeyConflict "i1" ks ≠ DBErr.InvalidState r0) :=
  create_fileset_keyconflict_typed db_claimed "i1" "f1" "n" "rd" "sw" "v"
    ["k1"] ⟨"i1", "imp1", "r1", false⟩ (by unfold keys_unique; decide)
    (by decide) (Or.inl (by decide))

/-- C2 counterexample: against a store whose only Fileset f1 is not complete,
create_image succeeds and attaches Image img1 to f1 without marking f1
complete in the same call, refuting the claim that every such call is
rejected with InvalidState. -/
theorem create_image_incomplete_cex :
    (∀ f ∈ db_fileset_only.filesets, f.complete = false) ∧
    op_ok (create_image db_fileset_only "f1" "img1" "im" 3) = true ∧
    (commit db_fileset_only
      (create_image db_fileset_only "f1" "img1" "im" 3)).images =
      [⟨"img1", "im", 3, "f1"⟩] := by
  decide

/-- C2 (amended): attaching Images and completion are tied only in
update_fileset: a call passing images whose complete argument is not
some true fails with InvalidState, while create_image attaches an Image to
any existing Fileset regardless of that Fileset's completion state, subject
only to the parent and uniqueness checks. -/
theorem image_attach_rules (db : DB) (fu u n : String) (pl : Nat)
    (c : Option Bool) (l : List ImageDraft) (f : Fileset)
    (hf : find_fileset db fu = some f)
    (him : db.images.any (fun im => im.uuid == u) = false) :
    (c ≠ some true → ∃ r0,
      update_fileset db fu c (some l) = .error (.InvalidState r0)) ∧
    (∃ im db2, create_image db fu u n pl = .ok (im, db2) ∧
      im.fileset_uuid = fu ∧ im ∈ db2.images) := by
  constructor
  · intro hc
    refine ⟨"images require completion", ?_⟩
    have hcbn : (c != some true) = true := bne_iff_ne.mpr hc
    simp [update_fileset, hf, hcbn]
  · have hf2 : db.filesets.find? (fun f2 => f2.uuid == fu) = some f := hf
    have hany : db.filesets.any (fun f2 => f2.uuid == fu) = true := by
      apply List.any_eq_true.mpr
      have hmem := List.mem_of_find?_eq_some hf2
      have hp := List.find?_some hf2
      exact ⟨f, hmem, hp⟩
    refine ⟨⟨u, n, pl, fu⟩,
      { db with images := ⟨u, n, pl, fu⟩ :: db.images }, ?_, rfl, ?_⟩
    · simp [create_image, hany, him]
    · exact List.mem_cons_self _ _

/-- Witness for the amended C2: on the store with the single incomplete
Fileset f1, update_fileset passing images without complete = true fails with
InvalidState, and create_image attaches img1 to f1. -/
theorem image_attach_rules_witness :
    ((none : Option Bool) ≠ some true → ∃ r0,
      update_fileset db_fileset_only "f1" none (some [⟨"imgX", "nm", 2⟩]) =
        .error (.InvalidState r0)) ∧
    (∃ im db2, create_image db_fileset_only "f1" "img1" "im" 3 =
      .ok (im, db2) ∧ im.fileset_uuid = "f1" ∧ im ∈ db2.images) :=
  image_attach_rules db_fileset_only "f1" "img1" "im" 3 none
    [⟨"imgX", "nm", 2⟩] ⟨"f1", "fs1", "rd", "sw", "v", false, "i1"⟩
    (by decide) (by decide)

end MinervaDB
